import Mathlib

/-!
# Verification of the PR-Reviewer tool platform

A shallow embedding of the parts of the PR-Reviewer repository that the
checked claims are about:

* the Asana tool server's `list_tasks` / `find_task` operations
  (`src/servers/asana_mcp/tools/`),
* the Slack client's `conversations_history` / `conversations_replies`
  (`src/clients/slack.py`) and the `get_last_messages` tool,
* the GitHub tool server's `get_pull_request_status` and
  `list_pull_requests` (`src/servers/github_mcp/tools/`),
* the agent-scope prompt server's `pr_review_prompt`
  (`src/servers/agent_scope_mcp/main.py`),
* the global registry's `search_tools`, `get_tools_by_tags` and
  `initialize` (`src/global_server/registry.py`).

HTTP interactions are modelled by passing the upstream outcome as an
explicit argument (`Except` for fallible calls); Python exceptions are
modelled by the `PyResult` sum; Python `os.getenv` is an explicit
`String → Option String` environment.
-/

/-- Python `str.strip()`: remove leading and trailing whitespace.
Written over the character list so that it evaluates in the kernel. -/
def pyStrip (s : String) : String :=
  String.mk (((s.data.dropWhile Char.isWhitespace).reverse.dropWhile
    Char.isWhitespace).reverse)

/-- Outcome of calling a Python function: either it raised an exception
(carrying the exception message) or it returned a value. -/
inductive PyResult (α : Type) where
  | raised (msg : String)
  | returned (v : α)
deriving DecidableEq

/-- The process environment, as read by `os.getenv`: `none` models an
unset variable. -/
def Env : Type := String → Option String

/-- Python truthiness of an `os.getenv` result: `None` and the empty
string are falsy (`if not token: ...`). -/
def envTruthy (v : Option String) : Bool :=
  match v with
  | none => false
  | some s => !s.isEmpty

/-- A fully-populated environment for concrete evaluations. -/
def envFull : Env := fun _ => some "set"

/-- An empty environment (every variable unset). -/
def envEmpty : Env := fun _ => none

/-- An environment where only the Asana access token is set (the
workspace id is missing). -/
def envTokOnly : Env := fun v =>
  if v = "ASANA_PERSONAL_ACCESS_TOKEN" then some "tok" else none

/-! ## Asana tool server (`src/servers/asana_mcp/tools`) -/

/-- One raw task object of the upstream Asana response (`response.json()["data"]`
entries). Every field is optional because the tool reads them with
`task_data.get(...)`. The `assignee`/`workspace` JSON blobs are abstracted
to opaque strings: no claim inspects their structure. -/
structure TaskData where
  gid? : Option String
  name? : Option String
  notes? : Option String
  completed? : Option Bool
  assignee? : Option String
  workspace? : Option String
  projects? : Option (List String)
  created_at? : Option String
  modified_at? : Option String
deriving DecidableEq

/-- The task record the `list_tasks` tool builds from a raw task
(`tasks.append({...})` in `list_tasks.py`, lines 79-90), with the
defaults the `.get` calls supply. -/
structure TaskRecord where
  gid : Option String
  name : Option String
  notes : String
  completed : Bool
  assignee : Option String
  workspace : Option String
  projects : List String
  created_at : Option String
  modified_at : Option String
deriving DecidableEq

/-- `list_tasks.py` lines 79-90: reshape one raw task into the uniform
task record. -/
def transformTask (t : TaskData) : TaskRecord :=
  { gid := t.gid?
    name := t.name?
    notes := t.notes?.getD ""
    completed := t.completed?.getD false
    assignee := t.assignee?
    workspace := t.workspace?
    projects := t.projects?.getD []
    created_at := t.created_at?
    modified_at := t.modified_at? }

/-- The `filters_applied` sub-dictionary of a successful `list_tasks`
result. -/
structure AppliedFilters where
  project_gid : Option String
  assignee : Option String
  completed_since : Option String
  limit : Int
deriving DecidableEq

/-- The dictionary returned (not raised) by `list_tasks`. `error?` is
present only on the failure path, `filters_applied?` only on success. -/
structure ListTasksDict where
  success : Bool
  error? : Option String
  tasks : List TaskRecord
  count : Nat
  filters_applied? : Option AppliedFilters
deriving DecidableEq

/-- `list_tasks` (`src/servers/asana_mcp/tools/list_tasks.py`).
The upstream GET on the chosen endpoint is abstracted by `api`: `.ok`
carries the decoded `data` list, `.error` an exception message raised
inside the `try` block. Endpoint/parameter construction (lines 50-68)
does not affect the returned shape and is not modelled. Note the limit
and environment validations (lines 34-44) sit *before* the `try` block:
their `ValueError`s propagate out of the call. -/
def list_tasks (project_gid assignee completed_since : Option String)
    (limit : Int) (env : Env) (api : Except String (List TaskData)) :
    PyResult ListTasksDict :=
  if limit < 1 ∨ limit > 100 then
    .raised "Limit must be between 1 and 100"
  else if !envTruthy (env "ASANA_PERSONAL_ACCESS_TOKEN") then
    .raised "ASANA_PERSONAL_ACCESS_TOKEN environment variable is required"
  else if !envTruthy (env "ASANA_WORKSPACE_ID") then
    .raised "ASANA_WORKSPACE_ID environment variable is required"
  else
    match api with
    | .error e =>
        .returned { success := false, error? := some e, tasks := [], count := 0,
                    filters_applied? := none }
    | .ok data =>
        let tasks := data.map transformTask
        .returned { success := true, error? := none, tasks := tasks,
                    count := tasks.length,
                    filters_applied? :=
                      some ⟨project_gid, assignee, completed_since, limit⟩ }

/-- The pydantic `AsanaTask` model (`src/clients/asana.py`), with JSON
blobs abstracted to strings. -/
structure AsanaTask where
  gid : String
  name : String
  notes : Option String
  completed : Bool
  assignee : Option String
  workspace : String
  projects : List String
  created_at : Option String
  modified_at : Option String
deriving DecidableEq

/-- The dictionary returned (not raised) by `find_task`. -/
structure FindTaskDict where
  success : Bool
  error? : Option String
  task? : Option AsanaTask
deriving DecidableEq

/-- `find_task` (`src/servers/asana_mcp/tools/find_task.py`). The
client call `client.find_task(task_gid.strip())` is abstracted by
`client_result`: `.ok none` is the upstream Not-Found (the client
returns `None`), `.ok (some t)` a found task, `.error` any exception the
client re-raises, which the tool does not catch (it only has a `finally`
block). The blank-gid and environment validations raise. -/
def find_task (task_gid : String) (env : Env)
    (client_result : Except String (Option AsanaTask)) :
    PyResult FindTaskDict :=
  if (pyStrip task_gid).isEmpty then
    .raised "Task GID is required and cannot be empty"
  else if !envTruthy (env "ASANA_PERSONAL_ACCESS_TOKEN") then
    .raised "ASANA_PERSONAL_ACCESS_TOKEN environment variable is required"
  else if !envTruthy (env "ASANA_WORKSPACE_ID") then
    .raised "ASANA_WORKSPACE_ID environment variable is required"
  else
    match client_result with
    | .error e => .raised e
    | .ok none =>
        .returned { success := false,
                    error? := some ("Task with GID '" ++ task_gid ++ "' not found"),
                    task? := none }
    | .ok (some t) =>
        .returned { success := true, error? := none, task? := some t }

/-! ## Slack client (`src/clients/slack.py`) and `get_last_messages` tool -/

/-- One raw message object of a Slack API response. Every field is
optional (JSON keys may be absent); `attachments`/`blocks` entries are
abstracted to opaque strings. -/
structure RawMsg where
  type? : Option String
  ts? : Option String
  text? : Option String
  user? : Option String
  subtype? : Option String
  username? : Option String
  bot_id? : Option String
  attachments? : Option (List String)
  blocks? : Option (List String)
  thread_ts? : Option String
  reply_count? : Option Int
deriving DecidableEq

/-- The pydantic `SlackMessage` model (`src/clients/slack.py`). -/
structure SlackMessage where
  ts : String
  text : String
  user : String
  channel : String
  type : String
  subtype : Option String
  username : Option String
  bot_id : Option String
  attachments : List String
  blocks : List String
  thread_ts : Option String
  reply_count : Option Int
  replies : List RawMsg
deriving DecidableEq

/-- `SlackMessage(**msg_data)` after `msg_data["channel"] = channel`:
pydantic validation fails (`none`) when a required field (`ts`, `text`,
`user`) is absent; the other fields take the model's defaults. -/
def parseSlackMessage (channel : String) (m : RawMsg) : Option SlackMessage :=
  match m.ts?, m.text?, m.user? with
  | some ts, some text, some user =>
      some { ts := ts, text := text, user := user, channel := channel,
             type := m.type?.getD "message",
             subtype := m.subtype?, username := m.username?,
             bot_id := m.bot_id?,
             attachments := m.attachments?.getD [],
             blocks := m.blocks?.getD [],
             thread_ts := m.thread_ts?, reply_count := m.reply_count?,
             replies := [] }
  | _, _, _ => none

/-- Upstream outcome of one Slack Web API call: a non-2xx HTTP status,
a 2xx JSON body with `ok:false` carrying the error code, or an `ok:true`
body with the decoded payload. -/
inductive SlackResponse (α : Type) where
  | httpError (code : Nat)
  | notOk (err : String)
  | ok (payload : α)
deriving DecidableEq

/-- `SlackClient.conversations_history`: keeps only entries whose `type`
equals `"message"`, skips entries pydantic rejects, returns `[]` on a
404, re-raises any other failure. -/
def conversations_history (channel : String)
    (resp : SlackResponse (List RawMsg)) : PyResult (List SlackMessage) :=
  match resp with
  | .httpError code =>
      if code = 404 then .returned [] else .raised ("HTTP " ++ toString code)
  | .notOk err => .raised ("Slack API error: " ++ err)
  | .ok msgs =>
      .returned ((msgs.filter (fun m => m.type? == some "message")).filterMap
        (parseSlackMessage channel))

/-- `SlackClient.conversations_replies`: returns
`replies[1:] if replies else []` (drops the parent message), `[]` on a
404, re-raises any other failure. -/
def conversations_replies (channel ts : String)
    (resp : SlackResponse (List RawMsg)) : PyResult (List RawMsg) :=
  match resp with
  | .httpError code =>
      if code = 404 then .returned []
      else .raised ("HTTP " ++ toString code ++ " for thread " ++ ts ++
        " in " ++ channel)
  | .notOk err => .raised ("Slack API error: " ++ err)
  | .ok msgs => .returned (if msgs.isEmpty then [] else msgs.drop 1)

/-- The serializable message dictionary `get_last_messages` builds per
message (`get_last_messages.py`, lines 73-87). -/
structure MessageDict where
  ts : String
  text : String
  user : String
  channel : String
  type : String
  subtype : Option String
  username : Option String
  bot_id : Option String
  attachments : List String
  blocks : List String
  thread_ts : Option String
  reply_count : Option Int
  replies : List RawMsg
deriving DecidableEq

/-- One loop iteration of `get_last_messages`: build the dictionary and,
when `include_replies` and the message's `reply_count` is a truthy
positive number, attach the thread replies (a failed fetch degrades to
an empty reply list). `fetchReplies` abstracts
`client.conversations_replies(channel, msg.ts)`. -/
def buildMessageDict (fetchReplies : String → PyResult (List RawMsg))
    (include_replies : Bool) (msg : SlackMessage) : MessageDict :=
  let base : MessageDict :=
    { ts := msg.ts, text := msg.text, user := msg.user,
      channel := msg.channel, type := msg.type, subtype := msg.subtype,
      username := msg.username, bot_id := msg.bot_id,
      attachments := msg.attachments, blocks := msg.blocks,
      thread_ts := msg.thread_ts, reply_count := msg.reply_count,
      replies := [] }
  if include_replies &&
      (match msg.reply_count with
       | some n => decide (0 < n)
       | none => false) then
    match fetchReplies msg.ts with
    | .returned rs => { base with replies := rs }
    | .raised _ => { base with replies := [] }
  else base

/-- The dictionary `get_last_messages` returns. The failure dictionaries
in the source carry only `success` and `error`; absent keys are modelled
by the empty/`none` defaults here. -/
structure GetLastMessagesDict where
  success : Bool
  error? : Option String
  messages : List MessageDict
  count : Nat
  channel? : Option String
deriving DecidableEq

/-- `get_last_messages` (`src/servers/slack_mcp/tools/get_last_messages.py`).
The history call is abstracted by `history` (its upstream response) and
reply fetching by `fetchReplies`. The `latest`/`oldest` parameters only
shape the outgoing request and are not modelled. -/
def get_last_messages (channel : String) (limit : Int)
    (include_replies : Bool) (env : Env)
    (history : SlackResponse (List RawMsg))
    (fetchReplies : String → PyResult (List RawMsg)) : GetLastMessagesDict :=
  if (pyStrip channel).isEmpty then
    { success := false, error? := some "Channel is required and cannot be empty",
      messages := [], count := 0, channel? := none }
  else if limit ≤ 0 ∨ limit > 1000 then
    { success := false, error? := some "Limit must be between 1 and 1000",
      messages := [], count := 0, channel? := none }
  else if !envTruthy (env "SLACK_BOT_TOKEN") then
    { success := false, error? := some "SLACK_BOT_TOKEN environment variable not set",
      messages := [], count := 0, channel? := none }
  else
    match conversations_history (pyStrip channel) history with
    | .raised e =>
        { success := false, error? := some e, messages := [], count := 0,
          channel? := none }
    | .returned msgs =>
        let message_list := msgs.map (buildMessageDict fetchReplies include_replies)
        { success := true, error? := none, messages := message_list,
          count := message_list.length, channel? := some (pyStrip channel) }

/-- A concrete thread parent message for the reply-skipping example. -/
def slackParent : RawMsg :=
  { type? := some "message", ts? := some "100.0", text? := some "parent",
    user? := some "U1", subtype? := none, username? := none, bot_id? := none,
    attachments? := none, blocks? := none, thread_ts? := some "100.0",
    reply_count? := some 2 }

/-- First concrete thread reply. -/
def slackReply1 : RawMsg :=
  { slackParent with ts? := some "101.0", text? := some "first reply",
                     reply_count? := none }

/-- Second concrete thread reply. -/
def slackReply2 : RawMsg :=
  { slackParent with ts? := some "102.0", text? := some "second reply",
                     reply_count? := none }

/-! ## GitHub tool server (`src/servers/github_mcp/tools`) -/

/-- One raw status-check record of the upstream combined-status payload
(`status_data["statuses"]` entries). -/
structure RawStatus where
  id? : Option Int
  state? : Option String
  description? : Option String
  target_url? : Option String
  context? : Option String
  created_at? : Option String
  updated_at? : Option String
deriving DecidableEq

/-- The normalized status record `get_pull_request_status` builds
(lines 43-51). -/
structure ProcessedStatus where
  id : Option Int
  state : String
  description : String
  target_url : String
  context : String
  created_at : Option String
  updated_at : Option String
deriving DecidableEq

/-- Python `str.lower()`, written over the character list so that it
evaluates in the kernel. -/
def strLower (s : String) : String := String.mk (s.data.map Char.toLower)

/-- Lines 42-51: normalize one raw status record; the state string is
lower-cased with `""` for an absent upstream state. -/
def processStatus (st : RawStatus) : ProcessedStatus :=
  { id := st.id?, state := strLower (st.state?.getD ""),
    description := st.description?.getD "",
    target_url := st.target_url?.getD "",
    context := st.context?.getD "",
    created_at := st.created_at?, updated_at := st.updated_at? }

/-- The four per-state counters of the status summary. -/
structure StatusSummary where
  success : Nat
  pending : Nat
  failure : Nat
  error : Nat
deriving DecidableEq

/-- Lines 54-56: `if state in status_summary: status_summary[state] += 1`
— only the four known state strings are counted. -/
def bumpSummary (s : StatusSummary) (state : String) : StatusSummary :=
  if state = "success" then { s with success := s.success + 1 }
  else if state = "pending" then { s with pending := s.pending + 1 }
  else if state = "failure" then { s with failure := s.failure + 1 }
  else if state = "error" then { s with error := s.error + 1 }
  else s

/-- The upstream combined-status payload, with the fields the tool
reads. -/
structure StatusData where
  statuses : List RawStatus
  state? : Option String
  sha? : Option String
  total_count? : Option Int
  repository_html_url? : Option String
deriving DecidableEq

/-- The `pr_status` dictionary of a successful result (lines 61-75). -/
structure PrStatusDict where
  owner : String
  repo : String
  pull_number : Int
  overall_state : String
  total_statuses : Nat
  summary : StatusSummary
  statuses : List ProcessedStatus
  sha : String
  total_count : Int
  repository_url : String
deriving DecidableEq

/-- Result of a GitHub tool call: `{status:"success", <payload>}` or
`{status:"error", error, <payload>:None}`. -/
inductive GhResult (α : Type) where
  | ok (payload : α)
  | err (error : String)
deriving DecidableEq

/-- `get_pull_request_status`
(`src/servers/github_mcp/tools/get_pull_request_status.py`). The single
loop of the source both appends the processed record and bumps the
summary counter; it is rendered here as a `map` plus a fold with
`bumpSummary`, which visit the records in the same order. -/
def get_pull_request_status (owner repo : String) (pull_number : Int)
    (upstream : Except String StatusData) : GhResult PrStatusDict :=
  match upstream with
  | .error e =>
      .err ("Failed to get status for PR #" ++ toString pull_number ++
        " from " ++ owner ++ "/" ++ repo ++ ": " ++ e)
  | .ok sd =>
      let processed := sd.statuses.map processStatus
      let summary := sd.statuses.foldl
        (fun acc st => bumpSummary acc (strLower (st.state?.getD ""))) ⟨0, 0, 0, 0⟩
      .ok { owner := owner, repo := repo, pull_number := pull_number,
            overall_state := sd.state?.getD "pending",
            total_statuses := processed.length,
            summary := summary, statuses := processed,
            sha := sd.sha?.getD "",
            total_count := sd.total_count?.getD 0,
            repository_url := sd.repository_html_url?.getD "" }

/-- One raw pull-request object of the upstream listing response, with
the fields `list_pull_requests` reads. Fields read with plain indexing
(`pr["number"]`) are required; fields read with `.get` are optional. -/
structure RawPR where
  number : Int
  title : String
  body? : Option String
  state : String
  user_login : String
  created_at : String
  updated_at : String
  base_ref : String
  head_ref : String
  draft? : Option Bool
  merged? : Option Bool
  mergeable? : Option Bool
  html_url : String
  additions? : Option Int
  deletions? : Option Int
  changed_files? : Option Int
  commits? : Option Int
  comments? : Option Int
  review_comments? : Option Int
  labels : List String
  assignees : List String
  requested_reviewers : List String
deriving DecidableEq

/-- The processed pull-request record (lines 64-87). -/
structure ProcessedPR where
  number : Int
  title : String
  description : String
  state : String
  author : String
  created_at : String
  updated_at : String
  base_branch : String
  head_branch : String
  draft : Bool
  merged : Bool
  mergeable : Option Bool
  url : String
  additions : Int
  deletions : Int
  changed_files : Int
  commits : Int
  comments : Int
  review_comments : Int
  labels : List String
  assignees : List String
  reviewers : List String
deriving DecidableEq

/-- Python string slicing `s[:n]` (by code points), written over the
character list so that it evaluates in the kernel. -/
def pyTake (n : Nat) (s : String) : String := String.mk (s.data.take n)

/-- Lines 63-87: process one raw PR. The description is
`pr_body[:500] + ("..." if len(pr_body) > 500 else "")`. -/
def processPR (pr : RawPR) : ProcessedPR :=
  let pr_body := pr.body?.getD ""
  { number := pr.number, title := pr.title,
    description := pyTake 500 pr_body ++
      (if pr_body.length > 500 then "..." else ""),
    state := pr.state, author := pr.user_login,
    created_at := pr.created_at, updated_at := pr.updated_at,
    base_branch := pr.base_ref, head_branch := pr.head_ref,
    draft := pr.draft?.getD false, merged := pr.merged?.getD false,
    mergeable := pr.mergeable?, url := pr.html_url,
    additions := pr.additions?.getD 0, deletions := pr.deletions?.getD 0,
    changed_files := pr.changed_files?.getD 0,
    commits := pr.commits?.getD 0, comments := pr.comments?.getD 0,
    review_comments := pr.review_comments?.getD 0,
    labels := pr.labels, assignees := pr.assignees,
    reviewers := pr.requested_reviewers }

/-- The summary statistics of `list_pull_requests` (lines 91-97). -/
structure PRSummary where
  total_found : Nat
  open_count : Nat
  closed_count : Nat
  draft_count : Nat
  merged_count : Nat
deriving DecidableEq

/-- The `repository` dictionary of a successful `list_pull_requests`
result (lines 101-111). -/
structure RepoDict where
  owner : String
  repo : String
  state : String
  limit : Int
  sort : String
  summary : PRSummary
  pull_requests : List ProcessedPR
deriving DecidableEq

/-- `list_pull_requests`
(`src/servers/github_mcp/tools/list_pull_requests.py`). The upstream
listing endpoint is abstracted by `fetch`, applied to the `per_page`
request parameter `min(limit, 100)` (line 52); every other request
parameter is a constant passthrough of the arguments. -/
def list_pull_requests (owner repo state : String) (limit : Int)
    (sort : String) (fetch : Int → Except String (List RawPR)) :
    GhResult RepoDict :=
  let per_page := min limit 100
  match fetch per_page with
  | .error e =>
      .err ("Failed to list pull requests from " ++ owner ++ "/" ++ repo ++
        ": " ++ e)
  | .ok prs_data =>
      let processed := prs_data.map processPR
      let summary : PRSummary :=
        { total_found := processed.length,
          open_count := (processed.filter (fun p => p.state == "open")).length,
          closed_count := (processed.filter (fun p => p.state == "closed")).length,
          draft_count := (processed.filter (fun p => p.draft)).length,
          merged_count := (processed.filter (fun p => p.merged)).length }
      .ok { owner := owner, repo := repo, state := state, limit := limit,
            sort := sort, summary := summary, pull_requests := processed }

/-! ## Agent-scope prompt server (`src/servers/agent_scope_mcp`) -/

/-- Scan a placeholder body up to the closing `\x7d`; `none` when the
brace is never closed. Returns the name and the remaining input. -/
def scanPlaceholder : List Char → Option (List Char × List Char)
  | [] => none
  | c :: rest =>
      if c = '}' then some ([], rest)
      else
        match scanPlaceholder rest with
        | some (nm, r) => some (c :: nm, r)
        | none => none

/-- Python `str.format(**kwargs)` restricted to the simple `\x7bname\x7d`
placeholders this repository uses: substitutes each placeholder from
`args`, treats doubled braces as escapes, and fails (KeyError /
ValueError) on a missing argument or a stray brace. `fuel` bounds the
recursion; callers supply the input length, which suffices because every
step consumes at least one character. -/
def pyFormatAux (args : List (String × String)) :
    Nat → List Char → Except String (List Char)
  | _, [] => .ok []
  | 0, _ :: _ => .error "format: out of fuel"
  | Nat.succ f, '{' :: '{' :: rest =>
      (fun t => '{' :: t) <$> pyFormatAux args f rest
  | Nat.succ f, '}' :: '}' :: rest =>
      (fun t => '}' :: t) <$> pyFormatAux args f rest
  | Nat.succ f, '{' :: rest =>
      match scanPlaceholder rest with
      | none => .error "Single '\x7b' encountered in format string"
      | some (nm, r) =>
          match args.lookup (String.mk nm) with
          | none => .error ("KeyError: '" ++ String.mk nm ++ "'")
          | some v => (fun t => v.data ++ t) <$> pyFormatAux args f r
  | Nat.succ _, '}' :: _ =>
      .error "Single '\x7d' encountered in format string"
  | Nat.succ f, c :: rest =>
      (fun t => c :: t) <$> pyFormatAux args f rest

/-- `template.format(**args)` as an `Except`: `.error` models the raised
KeyError/ValueError. -/
def pyFormat (template : String) (args : List (String × String)) :
    Except String String :=
  String.mk <$> pyFormatAux args template.data.length template.data

/-- The `VersionedPrompt` class
(`src/servers/agent_scope_mcp/prompts/versioned_prompt.py`). -/
structure VersionedPrompt where
  name : String
  version : String
  template : String
deriving DecidableEq

/-- `VersionedPrompt.get`: the current template. -/
def VersionedPrompt.get (p : VersionedPrompt) : String := p.template

/-- `VersionedPrompt.format`: substitute and re-raise any failure. -/
def VersionedPrompt.format (p : VersionedPrompt)
    (args : List (String × String)) : Except String String :=
  pyFormat p.template args

/-- `VersionedPrompt.update_template`: replace the template and
optionally bump the version. -/
def VersionedPrompt.update_template (p : VersionedPrompt)
    (new_template : String) (new_version : Option String) : VersionedPrompt :=
  { p with template := new_template,
           version := new_version.getD p.version }

/-- The literal PR-review template
(`src/servers/agent_scope_mcp/prompts/pr_review_prompt.py`), including
its leading and trailing newline. -/
def PR_REVIEW_PROMPT_TEMPLATE : String :=
  "\nYou are an expert software engineer assisting with code review workflows.\n\n## Goal\nReview the given pull request using **all available context**:\n- **Requirements**: either linked directly in the PR or inferred from its title (identifiers like \"FFM-X\")\n- **Code diff**\n- **PR metadata**\n\n## Required Steps\n1. Summarize what the PR changes.\n2. Extract the Asana task name:\n   - Pattern: <PROJECT_KEY>-<NUMBER> (e.g., FFM-2)\n   - Return only the identifier (e.g., FFM-2) or \"No task name found\".\n3. Retrieve full task details.\n4. Verify implementation against requirements (or state lack of requirements).\n5. Provide 2–4 actionable suggestions.\n6. Keep feedback concise.\n\n## Response Format\nAlways include:\n- Pull request url\n- Summary\n- Asana task id (e.g., FFM-2 or \"No task name found\")\n- Asana task details (summary, if exists)\n- Requirement check result\n- Improvement suggestions\n\nCurrent PR context:\n- PR ID: {pr_id}\n- PR URL: {pr_url}\n"

/-- The module-level `PR_REVIEW_PROMPT` instance. -/
def PR_REVIEW_PROMPT : VersionedPrompt :=
  { name := "pr-review-prompt", version := "1.0.0",
    template := PR_REVIEW_PROMPT_TEMPLATE }

/-- `main.py` lines 51-54: resolve the owner, falling back to the
literal `"unknown"` when `GITHUB_OWNER` is unset (or empty — Python
truthiness). -/
def ownerOf (env : Env) : String :=
  match env "GITHUB_OWNER" with
  | some s => if s.isEmpty then "unknown" else s
  | none => "unknown"

/-- `main.py` line 57: the canonical PR URL. -/
def prUrlOf (owner repo_id pr_id : String) : String :=
  "https://github.com/" ++ owner ++ "/" ++ repo_id ++ "/pull/" ++ pr_id

/-- The keyword arguments passed to the template substitution
(`main.py` line 60). -/
def promptArgs (pr_id pr_url : String) : List (String × String) :=
  [("pr_id", pr_id), ("pr_url", pr_url)]

/-- `pr_review_prompt` (`src/servers/agent_scope_mcp/main.py`). The
prompt is served from the current state `p` of the module-level
`PR_REVIEW_PROMPT` (initially `PR_REVIEW_PROMPT` itself). Any failure
in the body — in this model only a substitution failure — is caught and
answered with the raw template `PR_REVIEW_PROMPT.get()`. -/
def pr_review_prompt (p : VersionedPrompt) (pr_id repo_id : String)
    (env : Env) : String :=
  let owner := ownerOf env
  let pr_url := prUrlOf owner repo_id pr_id
  match pyFormat p.template (promptArgs pr_id pr_url) with
  | .ok s => s
  | .error _ => VersionedPrompt.get p

/-! ## Global registry (`src/global_server/registry.py`) -/

/-- Substring test built on the character lists: `needle ∈ hay` in the
Python `in` sense (`""` is a substring of everything). -/
def listInfix (needle hay : List Char) : Bool :=
  hay.tails.any (fun t => needle.isPrefixOf t)

/-- Python `needle in hay` on strings. -/
def strContains (hay needle : String) : Bool := listInfix needle.data hay.data

/-- The `ToolMetadata` dataclass (`registry.py`, lines 22-32). The tag
set is modelled as a list read only through membership; the `parameters`
schema blob is abstracted to string pairs (no claim inspects it);
`last_used` timestamps are abstracted to `Nat`. -/
structure ToolMetadata where
  name : String
  description : String
  tags : List String
  server_prefix : String
  parameters : List (String × String)
  usage_count : Nat
  last_used : Option Nat
  is_deprecated : Bool
deriving DecidableEq

/-- Projection helper for the server-prefix field. -/
def spfx (m : ToolMetadata) : String := ToolMetadata.server_prefix m

/-- Projection helper for the usage counter. -/
def usageOf (m : ToolMetadata) : Nat := m.usage_count

/-- `ToolMetadata.matches_tag_filter`: `required_tags.issubset(self.tags)`. -/
def matches_tag_filter (m : ToolMetadata) (required_tags : List String) : Bool :=
  required_tags.all (fun t => m.tags.contains t)

/-- `ToolMetadata.matches_search_query`: case-insensitive substring
match against the name, the description, or any tag. -/
def matches_search_query (m : ToolMetadata) (query : String) : Bool :=
  let query_lower := strLower query
  strContains (strLower m.name) query_lower ||
  strContains (strLower m.description) query_lower ||
  m.tags.any (fun tag => strContains (strLower tag) query_lower)

/-- The descending-usage ordering the search sorts by (`results.sort(
key=lambda x: x.usage_count, reverse=True)` — a stable descending sort,
rendered with Mathlib's stable `insertionSort`). -/
def usageGE (a b : ToolMetadata) : Prop := usageOf b ≤ usageOf a

instance : DecidableRel usageGE := fun _ _ => Nat.decLe _ _

instance : IsTotal ToolMetadata usageGE :=
  ⟨fun a b => Nat.le_total (usageOf b) (usageOf a)⟩

instance : IsTrans ToolMetadata usageGE :=
  ⟨fun _ _ _ h h' => Nat.le_trans h' h⟩

/-- Python list slicing `l[:n]` for a possibly negative `n`. -/
def pySliceTo (n : Int) (l : List ToolMetadata) : List ToolMetadata :=
  if 0 ≤ n then l.take n.toNat else l.take (l.length - n.natAbs)

/-- `McpServersRegistry.search_tools` (`registry.py`, lines 244-281),
as a function of the metadata catalog `metadata`
(`self._tool_metadata.values()` in insertion order). Each `continue`
guard of the loop becomes one conjunct of the filter; note the Python
truthiness tests: an empty tag list, an empty-string `server_prefix` or
query, and a `limit` of `0` all disable their filter/truncation.
`searchCond` is the per-element conjunction of the loop's three
`continue` guards (lines 258-269; `required_tags` is
`set(tags) if tags else set()`). -/
def searchCond (query : Option String) (tags : Option (List String))
    ( server_prefix : Option String) (m : ToolMetadata) : Bool :=
  let required_tags : List String := match tags with
    | some ts => ts
    | none => []
  ( required_tags.isEmpty || matches_tag_filter m required_tags) &&
  (match server_prefix with
   | some p => p.isEmpty || ( spfx m == p)
   | none => true) &&
  (match query with
   | some q => q.isEmpty || matches_search_query m q
   | none => true)

/-- The body of `McpServersRegistry.search_tools`: filter by
`searchCond`, stable-sort by `usage_count` descending, then apply the
truthy `limit` (`if limit: results = results[:limit]`). -/
def search_tools (metadata : List ToolMetadata) (query : Option String)
    (tags : Option (List String)) ( server_prefix : Option String)
    (limit : Option Int) : List ToolMetadata :=
  let results := metadata.filter (searchCond query tags server_prefix)
  let sorted := List.insertionSort usageGE results
  match limit with
  | none => sorted
  | some n => if n == 0 then sorted else pySliceTo n sorted

/-- Dictionary lookup in the tag index (`self._tag_index[tag]` /
`tag in self._tag_index`). -/
def lookupTag (idx : List (String × Finset String)) (tag : String) :
    Option (Finset String) :=
  match idx with
  | [] => none
  | (t, s) :: rest => if tag = t then some s else lookupTag rest tag

/-- The `match_all` loop of `get_tools_by_tags` (lines 291-304):
intersect the index entries of the requested tags, short-circuiting to
the empty set at the first unknown tag. `acc` is the running
`matching_tool_names` (`none` models Python's initial `None`). -/
def matchAllLoop (idx : List (String × Finset String)) :
    List String → Option (Finset String) → Finset String
  | [], acc => acc.getD ∅
  | t :: ts, acc =>
      match lookupTag idx t with
      | some s =>
          matchAllLoop idx ts
            (some (match acc with
                   | none => s
                   | some a => a ∩ s))
      | none => ∅

/-- `McpServersRegistry.get_tools_by_tags` (`registry.py`, lines
283-320), as a function of the tag index and the name set of
`registry.get_tools()`; the returned mapping is modelled by its key
set. -/
def get_tools_by_tags (idx : List (String × Finset String))
    (allTools : Finset String) (tags : List String) (match_all : Bool) :
    Finset String :=
  if tags.isEmpty then ∅
  else
    let matching :=
      if match_all then matchAllLoop idx tags none
      else tags.foldl (fun acc t =>
        match lookupTag idx t with
        | some s => acc ∪ s
        | none => acc) ∅
    if matching = ∅ then ∅
    else matching.filter (fun n => n ∈ allTools)

/-- One tool of a sub-server's catalog, as the registry sees it. -/
structure Tool where
  name : String
  tags : List String
  description : String
deriving DecidableEq

/-- The mutable state of a `McpServersRegistry` instance: the merged
FastMCP tool catalog plus the fields set in `__init__` (lines 51-62).
`importRuns` counts executed sub-server imports, so that "a second call
re-runs no imports" is observable in the model. -/
structure RegistryState where
  registryTools : List Tool
  all_tags : Finset String
  is_initialized : Bool
  server_statuses : List (String × String)
  tool_metadata : List (String × ToolMetadata)
  tag_index : List (String × Finset String)
  importRuns : Nat
deriving DecidableEq

/-- A freshly constructed registry (`__init__`). -/
def emptyRegistry : RegistryState :=
  { registryTools := [], all_tags := ∅, is_initialized := false,
    server_statuses := [], tool_metadata := [], tag_index := [],
    importRuns := 0 }

/-- `import_server(sub, prefix=p)` renames each imported tool to
`<p>_<original-name>`. -/
def renameTool (p : String) (t : Tool) : Tool :=
  { t with name := p ++ "_" ++ t.name }

/-- The sequential `_import_*_server` calls of `initialize` (lines
74-77, 92-138): each import either merges the sub-server's tools under
its namespace and records the imported status, or records the error
status and re-raises, aborting the sequence. `subs` lists the
sub-servers in their order (asana, slack, scope, github) together with
each import's outcome. -/
def importAll : List (String × Except String (List Tool)) → RegistryState →
    RegistryState × Option String
  | [], s => (s, none)
  | (p, .error e) :: _, s =>
      ({ s with server_statuses := s.server_statuses ++ [(p, "error: " ++ e)],
                importRuns := s.importRuns + 1 }, some e)
  | (p, .ok ts) :: rest, s =>
      importAll rest
        { s with registryTools := s.registryTools ++ ts.map (renameTool p),
                 server_statuses := s.server_statuses ++ [(p, "imported")],
                 importRuns := s.importRuns + 1 }

/-- `_build_tool_metadata` (lines 162-189): the server prefix is the
substring before the first `'_'`, else `"unknown"`. -/
def serverPrefixOf (name : String) : String :=
  if name.data.contains '_' then
    String.mk (name.data.takeWhile (fun c => c ≠ '_'))
  else "unknown"

/-- The metadata record built for one imported tool. The best-effort
parameter-schema probing is abstracted to the empty blob. -/
def mkMeta (t : Tool) : ToolMetadata :=
  { name := t.name, description := t.description, tags := t.tags,
    server_prefix := serverPrefixOf t.name, parameters := [],
    usage_count := 0, last_used := none, is_deprecated := false }

/-- `_build_tag_index` inner update: add `name` to the index entry of
`tag`, creating the entry if absent. -/
def addToIndex (idx : List (String × Finset String)) (tag name : String) :
    List (String × Finset String) :=
  match idx with
  | [] => [(tag, {name})]
  | (t, s) :: rest =>
      if t = tag then (t, insert name s) :: rest
      else (t, s) :: addToIndex rest tag name

/-- `_build_tag_index` (lines 197-210). -/
def buildTagIndex (metadata : List (String × ToolMetadata))
    (idx0 : List (String × Finset String)) : List (String × Finset String) :=
  metadata.foldl
    (fun idx nmMd => nmMd.2.tags.foldl (fun ix tg => addToIndex ix tg nmMd.1) idx)
    idx0

/-- Steps 5-7 of initialization: `_collect_all_tags` (union the tool
tags into `all_tags`), `_build_tool_metadata` (one record per merged
tool), `_build_tag_index` (fold the metadata into the index). -/
def buildCatalog (s : RegistryState) : RegistryState :=
  let collected :=
    s.registryTools.foldl (fun acc (t : Tool) => acc ∪ t.tags.toFinset) s.all_tags
  let withTags := { s with all_tags := collected }
  let withMeta :=
    { withTags with tool_metadata :=
        withTags.registryTools.map (fun (t : Tool) => (t.name, mkMeta t)) }
  { withMeta with tag_index := buildTagIndex withMeta.tool_metadata withMeta.tag_index }

/-- `McpServersRegistry.initialize` (lines 64-90): a no-op once
`_is_initialized`; otherwise run the four imports sequentially (a
failed import aborts and re-raises, leaving `_is_initialized` false),
then build tags, metadata and the tag index, and mark the registry
initialized. The `Option String` component is the re-raised exception
(`none` on success). -/
def RegistryState.initialize (s : RegistryState)
    (subs : List (String × Except String (List Tool))) :
    RegistryState × Option String :=
  if s.is_initialized then (s, none)
  else
    match importAll subs s with
    | (s1, some e) => (s1, some e)
    | (s1, none) =>
        let s2 := buildCatalog s1
        ({ s2 with is_initialized := true }, none)

/-! ## Claim-side predicates and concrete fixtures -/

/-- Claim-side tag filter: every requested tag present on the tool. -/
def tagClause (tags : Option (List String)) (m : ToolMetadata) : Prop :=
  match tags with
  | some ts => ∀ t ∈ ts, t ∈ m.tags
  | none => True

instance (tags : Option (List String)) (m : ToolMetadata) :
    Decidable (tagClause tags m) :=
  match tags with
  | some ts => (inferInstance : Decidable (∀ t ∈ ts, t ∈ m.tags))
  | none => .isTrue trivial

/-- Claim-side server filter: the supplied value equals the tool's
server prefix. -/
def prefixClause (sp : Option String) (m : ToolMetadata) : Prop :=
  match sp with
  | some p => spfx m = p
  | none => True

instance (sp : Option String) (m : ToolMetadata) :
    Decidable (prefixClause sp m) :=
  match sp with
  | some p => (inferInstance : Decidable ( spfx m = p))
  | none => .isTrue trivial

/-- Claim-side query filter: the query is a case-insensitive substring
of the name, the description, or some tag. -/
def queryClause (query : Option String) (m : ToolMetadata) : Prop :=
  match query with
  | some q =>
      strContains (strLower m.name) (strLower q) = true ∨
      strContains (strLower m.description) (strLower q) = true ∨
      ∃ t ∈ m.tags, strContains (strLower t) (strLower q) = true
  | none => True

instance (query : Option String) (m : ToolMetadata) :
    Decidable (queryClause query m) :=
  match query with
  | some q =>
      (inferInstance : Decidable (strContains (strLower m.name) (strLower q) = true ∨
        strContains (strLower m.description) (strLower q) = true ∨
        ∃ t ∈ m.tags, strContains (strLower t) (strLower q) = true))
  | none => .isTrue trivial

/-- The specification's reading of the search filters: every requested
tag present on the tool, the server prefix equal to the tool's prefix,
and the query a case-insensitive substring of the name, the description
or some tag. -/
def claimPasses (query : Option String) (tags : Option (List String))
    (sp : Option String) (m : ToolMetadata) : Prop :=
  tagClause tags m ∧ prefixClause sp m ∧ queryClause query m

instance (query : Option String) (tags : Option (List String))
    (sp : Option String) (m : ToolMetadata) :
    Decidable (claimPasses query tags sp m) :=
  (inferInstance : Decidable (tagClause tags m ∧ prefixClause sp m ∧ queryClause query m))

/-- A state string the status summary recognizes. -/
def recognizedState (s : String) : Prop :=
  s = "success" ∨ s = "pending" ∨ s = "failure" ∨ s = "error"

instance (s : String) : Decidable (recognizedState s) := by
  unfold recognizedState; exact inferInstance

/-- Sum of the four summary counters. -/
def summarySum (s : StatusSummary) : Nat :=
  s.success + s.pending + s.failure + s.error

/-- A status record whose upstream state is none of the four recognized
strings. -/
def neutralStatus : RawStatus :=
  { id? := some 1, state? := some "neutral", description? := none,
    target_url? := none, context? := none, created_at? := none,
    updated_at? := none }

/-- A combined-status payload holding only the unrecognized record. -/
def neutralPayload : StatusData :=
  { statuses := [neutralStatus], state? := none, sha? := none,
    total_count? := none, repository_html_url? := none }

/-- The `pr_status` dictionary `get_pull_request_status` produces for
`neutralPayload`. -/
def neutralResult : PrStatusDict :=
  { owner := "octo", repo := "demo", pull_number := 7,
    overall_state := "pending", total_statuses := 1,
    summary := ⟨0, 0, 0, 0⟩,
    statuses := [{ id := some 1, state := "neutral", description := "",
                   target_url := "", context := "", created_at := none,
                   updated_at := none }],
    sha := "", total_count := 0, repository_url := "" }

/-- A one-element metadata catalog for the truncation counterexample. -/
def exTool : ToolMetadata :=
  { name := "asana_find_task_tool", description := "Find an Asana task",
    tags := ["asana", "task"], server_prefix := "asana", parameters := [],
    usage_count := 0, last_used := none, is_deprecated := false }

/-- The three-tool tag index of the specification's example: tools
`t1 : {a,b}`, `t2 : {a}`, `t3 : {b}`. -/
def exIdx : List (String × Finset String) :=
  [("a", {"t1", "t2"}), ("b", {"t1", "t3"})]

/-- The merged tool-name set of the three-tool example. -/
def exAllTools : Finset String := {"t1", "t2", "t3"}

/-- A one-server import list for initialization examples. -/
def exSubs : List (String × Except String (List Tool)) :=
  [("asana", .ok [{ name := "find_task_tool", tags := ["asana", "task"],
                    description := "Find an Asana task" }])]

/-- A raw Slack entry whose type is not `"message"`. -/
def exRawBot : RawMsg :=
  { type? := some "bot_message", ts? := some "200.0", text? := some "beep",
    user? := some "B1", subtype? := none, username? := none, bot_id? := none,
    attachments? := none, blocks? := none, thread_ts? := none,
    reply_count? := none }

/-- A raw Slack entry with no type field at all. -/
def exRawNoType : RawMsg :=
  { type? := none, ts? := some "300.0", text? := some "mystery",
    user? := some "U9", subtype? := none, username? := none, bot_id? := none,
    attachments? := none, blocks? := none, thread_ts? := none,
    reply_count? := none }

/-- The parsed form of `slackParent` in channel `"C1"`. -/
def exParsedParent : SlackMessage :=
  { ts := "100.0", text := "parent", user := "U1", channel := "C1",
    type := "message", subtype := none, username := none, bot_id := none,
    attachments := [], blocks := [], thread_ts := some "100.0",
    reply_count := some 2, replies := [] }

/-- A concrete raw pull request for the listing examples. -/
def exPR : RawPR :=
  { number := 1, title := "Add feature", body? := some "Body",
    state := "open", user_login := "alice", created_at := "2024-01-01",
    updated_at := "2024-01-02", base_ref := "main", head_ref := "feat",
    draft? := some false, merged? := some false, mergeable? := none,
    html_url := "https://example.test/pr/1", additions? := some 3,
    deletions? := some 1, changed_files? := some 2, commits? := some 1,
    comments? := some 0, review_comments? := some 0, labels := ["bug"],
    assignees := ["alice"], requested_reviewers := ["bob"] }

/-- The record `list_pull_requests` produces for `exPR`. -/
def exProcessedPR : ProcessedPR :=
  { number := 1, title := "Add feature", description := "Body",
    state := "open", author := "alice", created_at := "2024-01-01",
    updated_at := "2024-01-02", base_branch := "main", head_branch := "feat",
    draft := false, merged := false, mergeable := none,
    url := "https://example.test/pr/1", additions := 3, deletions := 1,
    changed_files := 2, commits := 1, comments := 0, review_comments := 0,
    labels := ["bug"], assignees := ["alice"], reviewers := ["bob"] }

/-- The repository dictionary `list_pull_requests` produces for a
one-element listing of `exPR`. -/
def exRepoDict : RepoDict :=
  { owner := "octo", repo := "demo", state := "all", limit := 30,
    sort := "updated",
    summary := { total_found := 1, open_count := 1, closed_count := 0,
                 draft_count := 0, merged_count := 0 },
    pull_requests := [exProcessedPR] }

/-! ## Theorems -/

/-! ### C1 — Asana tool-server failure contract -/

/-- C1, counterexample: with `limit = 0` (outside `[1,100]`) the
`list_tasks` tool raises a `ValueError` instead of returning the claimed
`{success:false, error, tasks:[], count:0}` value, and `find_task` with
a blank `task_gid` likewise raises instead of returning a
`{success:false, error}` value. -/
theorem asana_raises_on_invalid_limit :
    list_tasks none none none 0 envFull (.ok []) =
      .raised "Limit must be between 1 and 100" ∧
    find_task " " envFull (.ok none) =
      .raised "Task GID is required and cannot be empty" :=
  ⟨by decide, by decide⟩

/-- C1, amended: the Asana tool server raises `ValueError` for
validation failures (a limit outside `[1,100]`, a blank task gid) and
for missing configuration; only failures of the upstream request inside
the `try` block are converted to the structured
`{success:false, error, tasks:[], count:0}` value, and `find_task`
answers an upstream Not-Found with a returned
`{success:false, error, task:None}` value. -/
theorem asana_failure_contract (pg asg cs : Option String) (limit : Int)
    (env : Env) (api : Except String (List TaskData)) (gid : String)
    (cr : Except String (Option AsanaTask)) :
    ((limit < 1 ∨ limit > 100) →
      list_tasks pg asg cs limit env api =
        .raised "Limit must be between 1 and 100") ∧
    (1 ≤ limit → limit ≤ 100 →
      envTruthy (env "ASANA_PERSONAL_ACCESS_TOKEN") = true →
      envTruthy (env "ASANA_WORKSPACE_ID") = true →
      ∀ e, api = .error e →
        list_tasks pg asg cs limit env api =
          .returned { success := false, error? := some e, tasks := [],
                      count := 0, filters_applied? := none }) ∧
    ((pyStrip gid).isEmpty = true →
      find_task gid env cr = .raised "Task GID is required and cannot be empty") ∧
    ((pyStrip gid).isEmpty = false →
      envTruthy (env "ASANA_PERSONAL_ACCESS_TOKEN") = true →
      envTruthy (env "ASANA_WORKSPACE_ID") = true →
      cr = .ok none →
      find_task gid env cr =
        .returned { success := false,
                    error? := some ("Task with GID '" ++ gid ++ "' not found"),
                    task? := none }) ∧
    (1 ≤ limit → limit ≤ 100 →
      envTruthy (env "ASANA_PERSONAL_ACCESS_TOKEN") = false →
      list_tasks pg asg cs limit env api =
        .raised "ASANA_PERSONAL_ACCESS_TOKEN environment variable is required") ∧
    (1 ≤ limit → limit ≤ 100 →
      envTruthy (env "ASANA_PERSONAL_ACCESS_TOKEN") = true →
      envTruthy (env "ASANA_WORKSPACE_ID") = false →
      list_tasks pg asg cs limit env api =
        .raised "ASANA_WORKSPACE_ID environment variable is required") ∧
    ((pyStrip gid).isEmpty = false →
      envTruthy (env "ASANA_PERSONAL_ACCESS_TOKEN") = false →
      find_task gid env cr =
        .raised "ASANA_PERSONAL_ACCESS_TOKEN environment variable is required") ∧
    ((pyStrip gid).isEmpty = false →
      envTruthy (env "ASANA_PERSONAL_ACCESS_TOKEN") = true →
      envTruthy (env "ASANA_WORKSPACE_ID") = false →
      find_task gid env cr =
        .raised "ASANA_WORKSPACE_ID environment variable is required") := by
  refine ⟨?_, ?_, ?_, ?_, ?_, ?_, ?_, ?_⟩
  · intro h
    simp only [list_tasks, if_pos h]
  · intro h1 h2 htok hws e he
    subst he
    simp [list_tasks, htok, hws, not_or, not_lt, h1, h2, Int.not_lt.mpr h1, Int.not_lt.mpr h2]
  · intro h
    simp only [find_task, h, if_pos]
  · intro h htok hws hcr
    subst hcr
    simp [find_task, h, htok, hws]
  · intro h1 h2 htok
    simp [list_tasks, htok, not_or, not_lt, h1, h2, Int.not_lt.mpr h1, Int.not_lt.mpr h2]
  · intro h1 h2 htok hws
    simp [list_tasks, htok, hws, not_or, not_lt, h1, h2, Int.not_lt.mpr h1, Int.not_lt.mpr h2]
  · intro h htok
    simp [find_task, h, htok]
  · intro h htok hws
    simp [find_task, h, htok, hws]

/-- C1, witness: the amended contract at concrete inputs, including the
missing-configuration raises for an unset token and an unset workspace
id. -/
theorem asana_failure_contract_witness :
    list_tasks none none none 101 envFull (.ok []) =
      .raised "Limit must be between 1 and 100" ∧
    list_tasks none none none 50 envFull (.error "boom") =
      .returned { success := false, error? := some "boom", tasks := [],
                  count := 0, filters_applied? := none } ∧
    find_task "" envFull (.ok none) =
      .raised "Task GID is required and cannot be empty" ∧
    find_task "123" envFull (.ok none) =
      .returned { success := false,
                  error? := some "Task with GID '123' not found",
                  task? := none } ∧
    list_tasks none none none 50 envEmpty (.ok []) =
      .raised "ASANA_PERSONAL_ACCESS_TOKEN environment variable is required" ∧
    list_tasks none none none 50 envTokOnly (.ok []) =
      .raised "ASANA_WORKSPACE_ID environment variable is required" ∧
    find_task "123" envEmpty (.ok none) =
      .raised "ASANA_PERSONAL_ACCESS_TOKEN environment variable is required" ∧
    find_task "123" envTokOnly (.ok none) =
      .raised "ASANA_WORKSPACE_ID environment variable is required" :=
  ⟨(asana_failure_contract none none none 101 envFull (.ok []) "" (.ok none)).1
      (by decide),
   (asana_failure_contract none none none 50 envFull (.error "boom") "" (.ok none)).2.1
      (by decide) (by decide) (by decide) (by decide) "boom" rfl,
   (asana_failure_contract none none none 50 envFull (.ok []) "" (.ok none)).2.2.1
      (by decide),
   (asana_failure_contract none none none 50 envFull (.ok []) "123" (.ok none)).2.2.2.1
      (by decide) (by decide) (by decide) rfl,
   (asana_failure_contract none none none 50 envEmpty (.ok []) "" (.ok none)).2.2.2.2.1
      (by decide) (by decide) (by decide),
   (asana_failure_contract none none none 50 envTokOnly (.ok []) "" (.ok none)).2.2.2.2.2.1
      (by decide) (by decide) (by decide) (by decide),
   (asana_failure_contract none none none 50 envEmpty (.ok []) "123" (.ok none)).2.2.2.2.2.2.1
      (by decide) (by decide),
   (asana_failure_contract none none none 50 envTokOnly (.ok []) "123" (.ok none)).2.2.2.2.2.2.2
      (by decide) (by decide) (by decide)⟩

/-! ### C7 — Slack thread replies drop the parent -/

/-- C7: `conversations_replies` returns the upstream reply list with its
first entry (the parent message) removed, and the empty list on a 404;
on the concrete thread of one parent and two replies it returns exactly
the two replies, neither carrying the parent's timestamp. -/
theorem conversations_replies_drops_parent :
    (∀ channel ts msgs, conversations_replies channel ts (.ok msgs) =
       .returned (msgs.drop 1)) ∧
    (∀ channel ts, conversations_replies channel ts (.httpError 404) =
       .returned []) ∧
    conversations_replies "C1" "100.0" (.ok [slackParent, slackReply1, slackReply2]) =
      .returned [slackReply1, slackReply2] ∧
    slackReply1.ts? ≠ slackParent.ts? ∧ slackReply2.ts? ≠ slackParent.ts? := by
  refine ⟨?_, ?_, by decide, by decide, by decide⟩
  · intro channel ts msgs
    cases msgs <;> simp [conversations_replies]
  · intro channel ts
    simp [conversations_replies]

/-! ### C10 — empty tag list never means "all tools" -/

/-- C10: `get_tools_by_tags` with an empty tag list returns the empty
mapping for both values of `match_all`. -/
theorem get_tools_by_tags_empty_tags (idx : List (String × Finset String))
    (allTools : Finset String) (match_all : Bool) :
    get_tools_by_tags idx allTools [] match_all = ∅ := by
  simp [get_tools_by_tags]

/-! ### C8 — idempotent registry initialization -/

/-- C8: a second `initialize` after a successful one is a no-op — it
returns the identical state (tool catalog, tag set, metadata map, tag
index, status map) without error and runs no further sub-server import
(`importRuns` unchanged). -/
theorem initialize_idempotent (subs : List (String × Except String (List Tool)))
    (s s1 : RegistryState)
    (h : RegistryState.initialize s subs = (s1, none)) :
    RegistryState.initialize s1 subs = (s1, none) ∧
    ( RegistryState.initialize s1 subs).1.importRuns = s1.importRuns := by
  have hinit : s1.is_initialized = true := by
    by_cases hs : s.is_initialized
    · unfold RegistryState.initialize at h
      rw [if_pos hs] at h
      cases h
      exact hs
    · unfold RegistryState.initialize at h
      rw [if_neg hs] at h
      rcases him : importAll subs s with ⟨s', err⟩
      rw [him] at h
      cases err with
      | some e => simp at h
      | none =>
          simp only at h
          cases h
          rfl
  constructor
  · unfold RegistryState.initialize
    rw [if_pos hinit]
  · unfold RegistryState.initialize
    rw [if_pos hinit]

/-- C8, witness: initializing a fresh registry with the example
sub-server list and initializing the result again returns that state
unchanged. -/
theorem initialize_idempotent_witness :
    RegistryState.initialize ( RegistryState.initialize emptyRegistry exSubs).1 exSubs =
      (( RegistryState.initialize emptyRegistry exSubs).1, none) :=
  (initialize_idempotent exSubs emptyRegistry
    ( RegistryState.initialize emptyRegistry exSubs).1 (by decide)).1

/-! ### C3 — status summary counters -/

theorem bumpSummary_sum (s : StatusSummary) (st : String) :
    summarySum (bumpSummary s st) =
      summarySum s + (if recognizedState st then 1 else 0) := by
  unfold bumpSummary recognizedState summarySum
  split_ifs with h1 h2 h3 h4 h5 <;> simp_all <;> omega

theorem statusFold_sum (l : List RawStatus) (acc : StatusSummary) :
    summarySum (l.foldl
      (fun a st => bumpSummary a (strLower (st.state?.getD ""))) acc) =
      summarySum acc +
        (l.filter (fun st =>
          decide (recognizedState (strLower (st.state?.getD ""))))).length := by
  induction l generalizing acc with
  | nil => simp
  | cons st rest ih =>
      rw [List.foldl_cons, ih, bumpSummary_sum, List.filter_cons]
      by_cases h : recognizedState (strLower (st.state?.getD ""))
      · simp [h]; omega
      · simp [h]

/-- C3, counterexample: an upstream payload whose single status check
reports the unrecognized state `"neutral"` yields `total_statuses = 1`
but a summary whose four counters sum to `0`. -/
theorem status_summary_misses_unknown_state :
    get_pull_request_status "octo" "demo" 7 (.ok neutralPayload) =
      .ok neutralResult ∧
    neutralResult.summary.success + neutralResult.summary.pending +
      neutralResult.summary.failure + neutralResult.summary.error ≠
      neutralResult.total_statuses :=
  ⟨by decide, by decide⟩

/-- Unfolding lemma: the success branch of `get_pull_request_status`. -/
theorem get_pull_request_status_ok (owner repo : String) (n : Int)
    (sd : StatusData) :
    get_pull_request_status owner repo n (.ok sd) =
      .ok { owner := owner, repo := repo, pull_number := n,
            overall_state := sd.state?.getD "pending",
            total_statuses := (sd.statuses.map processStatus).length,
            summary := sd.statuses.foldl
              (fun acc st => bumpSummary acc (strLower (st.state?.getD "")))
              ⟨0, 0, 0, 0⟩,
            statuses := sd.statuses.map processStatus,
            sha := sd.sha?.getD "",
            total_count := sd.total_count?.getD 0,
            repository_url := sd.repository_html_url?.getD "" } := rfl

/-- C3, amended: the four summary counters of a successful
`get_pull_request_status` result sum to the number of status records
whose lower-cased state is one of `success`/`pending`/`failure`/`error`;
the sum equals `total_statuses` whenever every upstream state is
recognized (but not for arbitrary state strings). -/
theorem status_summary_counts_recognized (owner repo : String) (n : Int)
    (sd : StatusData) (d : PrStatusDict)
    (h : get_pull_request_status owner repo n (.ok sd) = .ok d) :
    (d.summary.success + d.summary.pending + d.summary.failure +
       d.summary.error =
       (sd.statuses.filter (fun st =>
         decide (recognizedState (strLower (st.state?.getD ""))))).length) ∧
    ((∀ st ∈ sd.statuses, recognizedState (strLower (st.state?.getD ""))) →
      d.summary.success + d.summary.pending + d.summary.failure +
        d.summary.error = d.total_statuses) := by
  rw [get_pull_request_status_ok] at h
  injection h with h'
  subst h'
  have hsum := statusFold_sum sd.statuses ⟨0, 0, 0, 0⟩
  simp only [summarySum] at hsum
  constructor
  · simpa using hsum
  · intro hall
    have hfilter : sd.statuses.filter (fun st =>
        decide (recognizedState (strLower (st.state?.getD "")))) = sd.statuses := by
      rw [List.filter_eq_self]
      intro st hst
      simpa using hall st hst
    rw [hfilter] at hsum
    simpa [List.length_map] using hsum

/-- C3, witness: the amended statement at a concrete payload whose two
states are both recognized. -/
theorem status_summary_counts_recognized_witness :
    get_pull_request_status "octo" "demo" 3
      (.ok { statuses := [{ neutralStatus with state? := some "SUCCESS" },
                          { neutralStatus with state? := some "pending" }],
             state? := some "pending", sha? := some "abc",
             total_count? := some 2, repository_html_url? := none }) =
      .ok { owner := "octo", repo := "demo", pull_number := 3,
            overall_state := "pending", total_statuses := 2,
            summary := ⟨1, 1, 0, 0⟩,
            statuses := [{ id := some 1, state := "success", description := "",
                           target_url := "", context := "", created_at := none,
                           updated_at := none },
                         { id := some 1, state := "pending", description := "",
                           target_url := "", context := "", created_at := none,
                           updated_at := none }],
            sha := "abc", total_count := 2, repository_url := "" } ∧
    (1 : Nat) + 1 + 0 + 0 = 2 := by
  refine ⟨by decide, ?_⟩
  have := (status_summary_counts_recognized "octo" "demo" 3
    { statuses := [{ neutralStatus with state? := some "SUCCESS" },
                   { neutralStatus with state? := some "pending" }],
      state? := some "pending", sha? := some "abc",
      total_count? := some 2, repository_html_url? := none }
    { owner := "octo", repo := "demo", pull_number := 3,
      overall_state := "pending", total_statuses := 2,
      summary := ⟨1, 1, 0, 0⟩,
      statuses := [{ id := some 1, state := "success", description := "",
                     target_url := "", context := "", created_at := none,
                     updated_at := none },
                   { id := some 1, state := "pending", description := "",
                     target_url := "", context := "", created_at := none,
                     updated_at := none }],
      sha := "abc", total_count := 2, repository_url := "" }
    (by decide)).2 (by decide)
  exact this

/-! ### C4 — pull-request listing: page-size cap, truncation, summary -/

/-- Unfolding lemma: the success branch of `list_pull_requests`. -/
theorem list_pull_requests_ok (owner repo st : String) (limit : Int)
    (srt : String) (f : Int → Except String (List RawPR))
    (prs : List RawPR) (h : f (min limit 100) = .ok prs) :
    list_pull_requests owner repo st limit srt f =
      .ok { owner := owner, repo := repo, state := st, limit := limit,
            sort := srt,
            summary := { total_found := (prs.map processPR).length,
                         open_count := ((prs.map processPR).filter
                           (fun p => p.state == "open")).length,
                         closed_count := ((prs.map processPR).filter
                           (fun p => p.state == "closed")).length,
                         draft_count := ((prs.map processPR).filter
                           (fun p => p.draft)).length,
                         merged_count := ((prs.map processPR).filter
                           (fun p => p.merged)).length },
            pull_requests := prs.map processPR } := by
  unfold list_pull_requests
  simp only [h]

/-- Taking at least the whole length of a string returns it unchanged. -/
theorem pyTake_of_le (s : String) (n : Nat) (h : s.length ≤ n) :
    pyTake n s = s := by
  unfold pyTake
  rw [List.take_of_length_le h]

/-- The computed description agrees with the claim's phrasing: the body
itself when it has at most 500 characters, else its first 500 characters
followed by an ellipsis. -/
theorem processPR_description (pr : RawPR) :
    (processPR pr).description =
      (if (pr.body?.getD "").length ≤ 500 then pr.body?.getD ""
       else pyTake 500 (pr.body?.getD "") ++ "...") := by
  have hdesc : (processPR pr).description =
      pyTake 500 (pr.body?.getD "") ++
        (if (pr.body?.getD "").length > 500 then "..." else "") := rfl
  rw [hdesc]
  by_cases hb : (pr.body?.getD "").length ≤ 500
  · rw [if_pos hb, if_neg (by omega : ¬ (pr.body?.getD "").length > 500),
      pyTake_of_le _ _ hb]
    simp
  · rw [if_neg hb, if_pos (by omega : (pr.body?.getD "").length > 500)]

/-- C4: a successful `list_pull_requests` call depends on the upstream
only through the page size `min(limit, 100)` (the cap), each returned
description is the body truncated to 500 characters with an ellipsis
appended only when truncation occurred, and the summary counts
open/closed/draft/merged over the returned set. -/
theorem list_pull_requests_spec (owner repo st : String) (limit : Int)
    (srt : String) (f g : Int → Except String (List RawPR)) :
    (f (min limit 100) = g (min limit 100) →
      list_pull_requests owner repo st limit srt f =
        list_pull_requests owner repo st limit srt g) ∧
    (∀ prs d, f (min limit 100) = .ok prs →
      list_pull_requests owner repo st limit srt f = .ok d →
      (d.pull_requests.map (fun p => p.description) =
        prs.map (fun pr =>
          if (pr.body?.getD "").length ≤ 500 then pr.body?.getD ""
          else pyTake 500 (pr.body?.getD "") ++ "...")) ∧
      d.summary.total_found = d.pull_requests.length ∧
      d.summary.open_count =
        (d.pull_requests.filter (fun p => p.state == "open")).length ∧
      d.summary.closed_count =
        (d.pull_requests.filter (fun p => p.state == "closed")).length ∧
      d.summary.draft_count =
        (d.pull_requests.filter (fun p => p.draft)).length ∧
      d.summary.merged_count =
        (d.pull_requests.filter (fun p => p.merged)).length) := by
  constructor
  · intro hfg
    unfold list_pull_requests
    simp only [hfg]
  · intro prs d hf hd
    rw [list_pull_requests_ok owner repo st limit srt f prs hf] at hd
    injection hd with hd'
    subst hd'
    refine ⟨?_, rfl, rfl, rfl, rfl, rfl⟩
    rw [List.map_map]
    exact List.map_congr_left (fun pr _ => processPR_description pr)

/-- C4, witness: the page-size cap and the processing of a concrete
one-PR listing. -/
theorem list_pull_requests_spec_witness :
    list_pull_requests "octo" "demo" "all" 30 "updated"
        (fun _ => .ok [exPR]) =
      list_pull_requests "octo" "demo" "all" 30 "updated"
        (fun pp => if pp = 30 then .ok [exPR] else .error "wrong page size") ∧
    (([exProcessedPR] : List ProcessedPR).map (fun p => p.description) =
      [exPR].map (fun pr =>
        if (pr.body?.getD "").length ≤ 500 then pr.body?.getD ""
        else pyTake 500 (pr.body?.getD "") ++ "...")) := by
  constructor
  · exact (list_pull_requests_spec "octo" "demo" "all" 30 "updated"
      (fun _ => .ok [exPR])
      (fun pp => if pp = 30 then .ok [exPR] else .error "wrong page size")).1
      (by rfl)
  · have h := ((list_pull_requests_spec "octo" "demo" "all" 30 "updated"
      (fun _ => .ok [exPR]) (fun _ => .ok [exPR])).2 [exPR] exRepoDict
      rfl (by decide)).1
    have hpull : exRepoDict.pull_requests = [exProcessedPR] := by decide
    rw [hpull] at h
    exact h

/-! ### C9 — only `type == "message"` entries survive history -/

/-- Building the serializable dictionary never changes the message's
type field, in any reply-fetching branch. -/
theorem buildMessageDict_type (fetch : String → PyResult (List RawMsg))
    (incl : Bool) (msg : SlackMessage) :
    (buildMessageDict fetch incl msg).type = msg.type := by
  unfold buildMessageDict
  split
  · cases fetch msg.ts <;> simp
  · simp

/-- C9: `conversations_history` keeps exactly the entries whose upstream
type equals `"message"` (pre-filtering the raw list to those entries
changes nothing), every message it returns has `type = "message"`, and
therefore every record `get_last_messages` returns has
`type = "message"`. -/
theorem history_returns_only_message_type (channel : String) :
    (∀ raw, conversations_history channel (.ok raw) =
       conversations_history channel
         (.ok (raw.filter (fun m => m.type? == some "message")))) ∧
    (∀ resp msgs, conversations_history channel resp = .returned msgs →
       ∀ m ∈ msgs, m.type = "message") ∧
    (∀ limit incl env hist fetch,
       ∀ md ∈ (get_last_messages channel limit incl env hist fetch).messages,
         md.type = "message") := by
  have hmain : ∀ (ch : String) resp msgs,
      conversations_history ch resp = .returned msgs →
      ∀ m ∈ msgs, m.type = "message" := by
    intro ch resp msgs h m hm
    cases resp with
    | httpError code =>
        by_cases h404 : code = 404 <;>
          simp [conversations_history, h404] at h
        subst h
        simp at hm
    | notOk err => simp [conversations_history] at h
    | ok raw =>
        simp only [conversations_history] at h
        injection h with h'
        subst h'
        rw [List.mem_filterMap] at hm
        obtain ⟨r, hr, hparse⟩ := hm
        rw [List.mem_filter] at hr
        have htype : r.type? = some "message" := by
          have := hr.2
          simpa using this
        unfold parseSlackMessage at hparse
        rcases hts : r.ts? with _ | ts <;> rw [hts] at hparse <;>
          rcases htext : r.text? with _ | text <;> rw [htext] at hparse <;>
          rcases huser : r.user? with _ | user <;> rw [huser] at hparse <;>
          simp only [] at hparse
        all_goals first
          | exact Option.noConfusion hparse
          | skip
        injection hparse with hrec
        subst hrec
        simp [htype]
  refine ⟨?_, hmain channel, ?_⟩
  · intro raw
    simp [conversations_history, List.filter_filter]
  · intro limit incl env hist fetch md hmd
    unfold get_last_messages at hmd
    split_ifs at hmd with h1 h2 h3
    · simp at hmd
    · simp at hmd
    · simp at hmd
    · rcases hh : conversations_history (pyStrip channel) hist with e | msgs <;>
        rw [hh] at hmd <;> simp only [] at hmd
      · simp at hmd
      · rw [List.mem_map] at hmd
        obtain ⟨msg, hmsg, hbuild⟩ := hmd
        rw [← hbuild, buildMessageDict_type]
        exact hmain (pyStrip channel) hist msgs hh msg hmsg

/-- C9, witness: a concrete history response containing a proper
message, a `bot_message` entry and a type-less entry yields exactly the
parsed message, whose type is `"message"`. -/
theorem history_returns_only_message_type_witness :
    conversations_history "C1" (.ok [slackParent, exRawBot, exRawNoType]) =
      .returned [exParsedParent] ∧
    exParsedParent.type = "message" :=
  ⟨by decide,
   (history_returns_only_message_type "C1").2.1
     (.ok [slackParent, exRawBot, exRawNoType]) [exParsedParent] (by decide)
     exParsedParent (by decide)⟩

/-! ### C5 — prompt-server fallbacks -/

set_option maxRecDepth 100000 in
/-- C5: when `GITHUB_OWNER` is unset, `pr_review_prompt` behaves exactly
as if the owner were the literal `"unknown"` (and, concretely, the
served prompt embeds `https://github.com/unknown/<repo>/pull/<pr>` —
the call succeeds); and whenever the template substitution fails, the
call returns the raw, unsubstituted template. -/
theorem pr_review_prompt_fallbacks (p : VersionedPrompt)
    (pr_id repo_id : String) (env : Env) :
    (env "GITHUB_OWNER" = none →
      pr_review_prompt p pr_id repo_id env =
        pr_review_prompt p pr_id repo_id
          (fun v => if v = "GITHUB_OWNER" then some "unknown" else env v)) ∧
    (∀ e, pyFormat p.template
        (promptArgs pr_id (prUrlOf (ownerOf env) repo_id pr_id)) = .error e →
      pr_review_prompt p pr_id repo_id env = VersionedPrompt.get p) ∧
    strContains (pr_review_prompt PR_REVIEW_PROMPT "123" "acme" envEmpty)
      "https://github.com/unknown/acme/pull/123" = true ∧
    (pyFormat PR_REVIEW_PROMPT.template
      (promptArgs "123" (prUrlOf (ownerOf envEmpty) "acme" "123"))).isOk = true := by
  refine ⟨?_, ?_, by decide, by decide⟩
  · intro h
    unfold pr_review_prompt ownerOf
    simp [h]
  · intro e he
    unfold pr_review_prompt
    simp only [he]

/-- C5, witness: a template whose placeholder has no supplied value is
served raw, and an unset `GITHUB_OWNER` is served as if it were the
literal `"unknown"`. -/
theorem pr_review_prompt_fallbacks_witness :
    pr_review_prompt ⟨"t", "1.0.0", "{missing}"⟩ "1" "r" envFull = "{missing}" ∧
    pr_review_prompt PR_REVIEW_PROMPT "9" "acme" envEmpty =
      pr_review_prompt PR_REVIEW_PROMPT "9" "acme"
        (fun v => if v = "GITHUB_OWNER" then some "unknown" else envEmpty v) :=
  ⟨(pr_review_prompt_fallbacks ⟨"t", "1.0.0", "{missing}"⟩ "1" "r" envFull).2.1
     "KeyError: 'missing'" (by rfl),
   (pr_review_prompt_fallbacks PR_REVIEW_PROMPT "9" "acme" envEmpty).1 rfl⟩

/-! ### C6 — tag intersection vs. union -/

/-- A successful tag-index lookup comes from an entry of the index. -/
theorem lookupTag_mem (idx : List (String × Finset String)) (t : String)
    (s : Finset String) (h : lookupTag idx t = some s) : (t, s) ∈ idx := by
  induction idx with
  | nil => simp [lookupTag] at h
  | cons p rest ih =>
      rcases p with ⟨t', s'⟩
      unfold lookupTag at h
      by_cases ht : t = t'
      · rw [if_pos ht] at h
        injection h with h'
        simp [ht, h']
      · rw [if_neg ht] at h
        exact List.mem_cons_of_mem _ (ih h)

/-- Membership in the `match_all` intersection loop: `x` survives iff
every processed tag is known and carries `x`, and `x` already lay in the
accumulator (which must exist once the tag list is nonempty). -/
theorem mem_matchAllLoop (idx : List (String × Finset String)) (x : String)
    (ts : List String) (acc : Option (Finset String)) :
    x ∈ matchAllLoop idx ts acc ↔
      ((∀ t ∈ ts, ∃ s, lookupTag idx t = some s ∧ x ∈ s) ∧
       (match acc with
        | some a => x ∈ a
        | none => ts ≠ [])) := by
  induction ts generalizing acc with
  | nil =>
      cases acc with
      | none => simp [matchAllLoop]
      | some a => simp [matchAllLoop]
  | cons t rest ih =>
      unfold matchAllLoop
      rcases hl : lookupTag idx t with _ | s
      · constructor
        · intro hx
          exact absurd hx (Finset.not_mem_empty x)
        · rintro ⟨hall, -⟩
          obtain ⟨s, hs, -⟩ := hall t (List.mem_cons_self t rest)
          rw [hl] at hs
          exact Option.noConfusion hs
      · rw [ih]
        cases acc with
        | none =>
            simp only [List.forall_mem_cons, hl]
            constructor
            · rintro ⟨hrest, hx⟩
              exact ⟨⟨⟨s, rfl, hx⟩, hrest⟩, by simp⟩
            · rintro ⟨⟨⟨s', hs', hx⟩, hrest⟩, -⟩
              injection hs' with hss
              subst hss
              exact ⟨hrest, hx⟩
        | some a =>
            simp only [List.forall_mem_cons, hl, Finset.mem_inter]
            constructor
            · rintro ⟨hrest, hxa, hxs⟩
              exact ⟨⟨⟨s, rfl, hxs⟩, hrest⟩, hxa⟩
            · rintro ⟨⟨⟨s', hs', hx⟩, hrest⟩, hxa⟩
              injection hs' with hss
              subst hss
              exact ⟨hrest, hxa, hx⟩

/-- Membership in the union fold of `get_tools_by_tags`. -/
theorem mem_unionFold (idx : List (String × Finset String)) (x : String)
    (ts : List String) (acc : Finset String) :
    x ∈ ts.foldl (fun acc t =>
        match lookupTag idx t with
        | some s => acc ∪ s
        | none => acc) acc ↔
      x ∈ acc ∨ ∃ t ∈ ts, ∃ s, lookupTag idx t = some s ∧ x ∈ s := by
  induction ts generalizing acc with
  | nil => simp
  | cons t rest ih =>
      rw [List.foldl_cons]
      rcases hl : lookupTag idx t with _ | s <;>
        · simp only [hl]
          rw [ih]
          simp [hl, Finset.mem_union]
          try tauto

/-- C6: for a nonempty tag list over a well-formed index (every index
entry lies inside the merged tool-name set), `match_all=true` returns
exactly the tools carried by *every* requested tag (hence the empty
mapping as soon as one requested tag is unknown), and `match_all=false`
returns exactly the tools carried by *some* known requested tag. -/
theorem get_tools_by_tags_match_semantics (idx : List (String × Finset String))
    (allTools : Finset String) (tags : List String)
    (htags : tags ≠ [])
    (hwf : ∀ pr ∈ idx, pr.2 ⊆ allTools) :
    (∀ x, x ∈ get_tools_by_tags idx allTools tags true ↔
       ∀ t ∈ tags, ∃ s, lookupTag idx t = some s ∧ x ∈ s) ∧
    (∀ x, x ∈ get_tools_by_tags idx allTools tags false ↔
       ∃ t ∈ tags, ∃ s, lookupTag idx t = some s ∧ x ∈ s) := by
  have hne : tags.isEmpty = false := by
    cases tags with
    | nil => exact absurd rfl htags
    | cons a l => rfl
  have hmem : ∀ (matching : Finset String) (x : String),
      (x ∈ (if matching = ∅ then (∅ : Finset String)
            else matching.filter (fun n => n ∈ allTools))) ↔
        x ∈ matching ∧ x ∈ allTools := by
    intro matching x
    by_cases hm : matching = ∅
    · subst hm
      simp
    · rw [if_neg hm, Finset.mem_filter]
  have habsorb : ∀ (s : Finset String) (t : String) (x : String),
      lookupTag idx t = some s → x ∈ s → x ∈ allTools := by
    intro s t x hs hx
    exact hwf (t, s) (lookupTag_mem idx t s hs) hx
  constructor
  · intro x
    have h1 : get_tools_by_tags idx allTools tags true =
        (if matchAllLoop idx tags none = ∅ then (∅ : Finset String)
         else (matchAllLoop idx tags none).filter (fun n => n ∈ allTools)) := by
      unfold get_tools_by_tags
      rw [hne]
      rfl
    rw [h1, hmem, mem_matchAllLoop]
    constructor
    · rintro ⟨⟨hall, -⟩, -⟩
      exact hall
    · intro hall
      refine ⟨⟨hall, htags⟩, ?_⟩
      cases tags with
      | nil => exact absurd rfl htags
      | cons t0 rest =>
          obtain ⟨s, hs, hx⟩ := hall t0 (List.mem_cons_self t0 rest)
          exact habsorb s t0 x hs hx
  · intro x
    have h1 : get_tools_by_tags idx allTools tags false =
        (if tags.foldl (fun acc t =>
              match lookupTag idx t with
              | some s => acc ∪ s
              | none => acc) ∅ = ∅ then (∅ : Finset String)
         else (tags.foldl (fun acc t =>
              match lookupTag idx t with
              | some s => acc ∪ s
              | none => acc) ∅).filter (fun n => n ∈ allTools)) := by
      unfold get_tools_by_tags
      rw [hne]
      rfl
    rw [h1, hmem, mem_unionFold]
    constructor
    · rintro ⟨hx | hex, -⟩
      · exact absurd hx (Finset.not_mem_empty x)
      · exact hex
    · intro hex
      refine ⟨Or.inr hex, ?_⟩
      obtain ⟨t, -, s, hs, hx⟩ := hex
      exact habsorb s t x hs hx

/-- C6, witness: the specification's three-tool example — tools tagged
`{a,b}`, `{a}`, `{b}` — where `match_all=true` on `[a,b]` yields only
the doubly-tagged tool and `match_all=false` yields all three. -/
theorem get_tools_by_tags_match_semantics_witness :
    get_tools_by_tags exIdx exAllTools ["a", "b"] true = {"t1"} ∧
    get_tools_by_tags exIdx exAllTools ["a", "b"] false = {"t1", "t2", "t3"} ∧
    (∀ x, x ∈ get_tools_by_tags exIdx exAllTools ["a", "b"] true ↔
       ∀ t ∈ ["a", "b"], ∃ s, lookupTag exIdx t = some s ∧ x ∈ s) :=
  ⟨by decide, by decide,
   (get_tools_by_tags_match_semantics exIdx exAllTools ["a", "b"]
     (by decide) (by decide)).1⟩

/-! ### C2 — search: filter, stable descending sort, truncation -/

/-- Inserting into the descending-usage order interacts with the
usage-class filter exactly as stability demands: the new element lands
behind every earlier element of its usage class. -/
theorem filter_usage_orderedInsert (c : Nat) (a : ToolMetadata)
    (l : List ToolMetadata) :
    (List.orderedInsert usageGE a l).filter (fun m => usageOf m == c) =
      (if usageOf a == c then
        a :: l.filter (fun m => usageOf m == c)
       else l.filter (fun m => usageOf m == c)) := by
  rw [List.orderedInsert_eq_take_drop, List.filter_append]
  by_cases hc : usageOf a = c
  · have htake : (l.takeWhile fun b => ¬ usageGE a b).filter
        (fun m => usageOf m == c) = [] := by
      rw [List.filter_eq_nil_iff]
      intro b hb
      have hgt : ¬ usageGE a b := by
        have := List.mem_takeWhile_imp hb
        simpa using this
      have : usageOf a < usageOf b := by
        unfold usageGE at hgt
        omega
      simp only [beq_iff_eq]
      omega
    rw [htake]
    have ha : (usageOf a == c) = true := beq_iff_eq.mpr hc
    rw [if_pos ha]
    rw [List.filter_cons]
    rw [ha]
    have hsplit : l.filter (fun m => usageOf m == c) =
        (l.takeWhile fun b => ¬ usageGE a b).filter (fun m => usageOf m == c) ++
        (l.dropWhile fun b => ¬ usageGE a b).filter (fun m => usageOf m == c) := by
      rw [← List.filter_append, List.takeWhile_append_dropWhile]
    rw [hsplit, htake]
    simp
  · have ha : (usageOf a == c) = false := by
      simp [beq_iff_eq, hc]
    rw [if_neg (by simp [ha])]
    rw [List.filter_cons, ha]
    simp only [Bool.false_eq_true, if_false]
    rw [← List.filter_append, List.takeWhile_append_dropWhile]

/-- Stability of the descending-usage sort: within each usage class the
sorted output lists exactly the input's elements in input order. -/
theorem filter_usage_insertionSort (c : Nat) (l : List ToolMetadata) :
    (List.insertionSort usageGE l).filter (fun m => usageOf m == c) =
      l.filter (fun m => usageOf m == c) := by
  induction l with
  | nil => rfl
  | cons a l ih =>
      rw [List.insertionSort, filter_usage_orderedInsert, ih, List.filter_cons]

/-- The Python `in`-check with an empty needle is always true. -/
theorem strContains_empty (s : String) : strContains s "" = true := by
  unfold strContains listInfix
  cases hd : s.data with
  | nil => rfl
  | cons a l =>
      rw [List.tails_cons]
      simp [List.isPrefixOf]

/-- The tag guard equals the claim-side tag filter (an empty required
set is vacuous in both readings). -/
theorem tagFilter_iff (m : ToolMetadata) (ts : List String) :
    (ts.isEmpty || matches_tag_filter m ts) = true ↔ ∀ t ∈ ts, t ∈ m.tags := by
  cases ts with
  | nil => simp
  | cons a l => simp [matches_tag_filter, List.all_eq_true, List.elem_iff]

/-- For a non-empty prefix argument the guard is exact equality. -/
theorem spFilter_iff (m : ToolMetadata) (p : String) (hp : p ≠ "") :
    (p.isEmpty || ( spfx m == p)) = true ↔ spfx m = p := by
  have hpe : p.isEmpty = false := by
    cases h : p.isEmpty
    · rfl
    · exact absurd ((String.isEmpty_iff p).mp h) hp
  simp [hpe]

/-- The query guard equals the claim-side case-insensitive substring
disjunction (an empty query matches everything in both readings). -/
theorem queryFilter_iff (m : ToolMetadata) (q : String) :
    (q.isEmpty || matches_search_query m q) = true ↔
      (strContains (strLower m.name) (strLower q) = true ∨
       strContains (strLower m.description) (strLower q) = true ∨
       ∃ t ∈ m.tags, strContains (strLower t) (strLower q) = true) := by
  by_cases hq : q.isEmpty = true
  · have hq0 : q = "" := (String.isEmpty_iff q).mp hq
    subst hq0
    simp only [hq, Bool.true_or]
    constructor
    · intro _
      exact Or.inl (strContains_empty _)
    · intro _
      trivial
  · have hq' : q.isEmpty = false := by
      cases h : q.isEmpty
      · rfl
      · exact absurd h hq
    simp only [hq', Bool.false_or, matches_search_query, Bool.or_eq_true,
      List.any_eq_true]
    exact or_assoc

/-- The whole per-element search guard equals the claim-side predicate
(for a non-empty prefix argument). -/
theorem searchCond_iff (query : Option String) (tags : Option (List String))
    (sp : Option String) (hsp : ∀ p, sp = some p → p ≠ "")
    (m : ToolMetadata) :
    searchCond query tags sp m = true ↔ claimPasses query tags sp m := by
  have htag : (((match tags with
      | some ts => ts
      | none => ([] : List String)).isEmpty ||
        matches_tag_filter m (match tags with
      | some ts => ts
      | none => [])) = true) ↔ tagClause tags m := by
    cases tags with
    | none => simp [tagClause]
    | some ts => exact tagFilter_iff m ts
  have hpfx : ∀ (o : Option String), (∀ p, o = some p → p ≠ "") →
      (((match o with
        | some p => p.isEmpty || ( spfx m == p)
        | none => true) = true) ↔ prefixClause o m) := by
    intro o ho
    cases o with
    | none => simp [prefixClause]
    | some p => exact spFilter_iff m p (ho p rfl)
  have hqry : ((match query with
      | some q => q.isEmpty || matches_search_query m q
      | none => true) = true) ↔ queryClause query m := by
    cases query with
    | none => simp [queryClause]
    | some q => exact queryFilter_iff m q
  unfold searchCond claimPasses
  rw [Bool.and_eq_true, Bool.and_eq_true]
  constructor
  · rintro ⟨⟨h1, h2⟩, h3⟩
    exact ⟨htag.mp h1, (hpfx sp hsp).mp h2, hqry.mp h3⟩
  · rintro ⟨h1, h2, h3⟩
    exact ⟨⟨htag.mpr h1, (hpfx sp hsp).mpr h2⟩, hqry.mpr h3⟩

/-- C2, counterexample: with `limit = 0` — a supplied limit — the
search is *not* truncated to the first `0` entries: on a one-tool
catalog it still returns that tool (`if limit:` treats `0` as "no
limit"). -/
theorem search_tools_zero_limit_not_truncated :
    search_tools [exTool] none none none (some 0) = [exTool] ∧
    ([exTool] : List ToolMetadata) ≠ [] :=
  ⟨by decide, by decide⟩

/-- C2, amended: for an initialized catalog, `search_tools` returns
exactly the metadata records passing all supplied filters, sorted by
`usage_count` descending with ties in stable (input) order, and — for a
*positive* supplied limit — truncated to the first `limit` entries; a
supplied empty-string `server_prefix` or zero limit is treated as
absent (Python truthiness). -/
theorem search_tools_filter_sort_truncate (metadata : List ToolMetadata)
    (query : Option String) (tags : Option (List String)) (sp : Option String)
    (limit : Option Int)
    (hsp : ∀ p, sp = some p → p ≠ "")
    (hlim : ∀ n, limit = some n → 0 < n) :
    (∀ m, m ∈ search_tools metadata query tags sp none ↔
       m ∈ metadata ∧ claimPasses query tags sp m) ∧
    List.Sorted usageGE (search_tools metadata query tags sp none) ∧
    (∀ c, (search_tools metadata query tags sp none).filter
        (fun m => usageOf m == c) =
      metadata.filter (fun m =>
        decide (claimPasses query tags sp m) && (usageOf m == c))) ∧
    (∀ n, limit = some n →
      search_tools metadata query tags sp limit =
        (search_tools metadata query tags sp none).take n.toNat) := by
  have hunfold : search_tools metadata query tags sp none =
      List.insertionSort usageGE (metadata.filter (searchCond query tags sp)) :=
    rfl
  refine ⟨?_, ?_, ?_, ?_⟩
  · intro m
    rw [hunfold, List.mem_insertionSort, List.mem_filter]
    exact and_congr_right (fun _ => searchCond_iff query tags sp hsp m)
  · rw [hunfold]
    exact List.sorted_insertionSort usageGE _
  · intro c
    rw [hunfold, filter_usage_insertionSort, List.filter_filter]
    apply List.filter_congr
    intro m _
    by_cases hcl : claimPasses query tags sp m
    · have h1 : searchCond query tags sp m = true :=
        (searchCond_iff query tags sp hsp m).mpr hcl
      simp [h1, hcl, Bool.and_comm]
    · have h1 : searchCond query tags sp m = false := by
        cases hb : searchCond query tags sp m
        · rfl
        · exact absurd ((searchCond_iff query tags sp hsp m).mp hb) hcl
      simp [h1, hcl]
  · intro n hn
    subst hn
    have h0 : 0 < n := hlim n rfl
    have hne : (n == 0) = false := by
      have : n ≠ 0 := by omega
      exact beq_eq_false_iff_ne.mpr this
    have h1 : search_tools metadata query tags sp (some n) =
        (if (n == 0) = true then
          List.insertionSort usageGE (metadata.filter (searchCond query tags sp))
         else pySliceTo n
          (List.insertionSort usageGE (metadata.filter (searchCond query tags sp)))) :=
      rfl
    rw [h1, hne]
    simp only [Bool.false_eq_true, if_false]
    unfold pySliceTo
    rw [if_pos (by omega : (0 : Int) ≤ n), hunfold]

/-- C2, witness: the amended statement at a one-tool catalog — the
membership characterization with no filters, and truncation for the
positive limit `1` with a query and a server prefix supplied. -/
theorem search_tools_filter_sort_truncate_witness :
    (exTool ∈ search_tools [exTool] none none none none ↔
      exTool ∈ [exTool] ∧ claimPasses none none none exTool) ∧
    search_tools [exTool] (some "find") none (some "asana") (some 1) =
      (search_tools [exTool] (some "find") none (some "asana") none).take 1 :=
  ⟨(search_tools_filter_sort_truncate [exTool] none none none none
      (fun p h => Option.noConfusion h) (fun n h => Option.noConfusion h)).1
      exTool,
   (search_tools_filter_sort_truncate [exTool] (some "find") none
      (some "asana") (some 1)
      (fun p h => by cases h; decide)
      (fun n h => by cases h; decide)).2.2.2 1 rfl⟩
